import Mathlib

/-!
Shallow embedding of `src/consumer/consumer.py` (GitHub events consumer:
enrichment helpers, detail extractor, DB writer, main loop), together with
theorems settling the specification claims about it.

Python values flowing through the consumer (JSON-decoded message bodies,
profile/geocode dictionaries, row parameters) are modelled by the `Json`
inductive; Python exceptions by the `PyErr` inductive and `Except`;
the external HTTP services and the database by explicit oracle arguments.
-/

namespace GHInsights

/-- A JSON / decoded-Python value. Numbers are modelled as rationals
(Python floats and ints; the claims only concern exact values such as 0). -/
inductive Json where
  | null : Json
  | bool : Bool → Json
  | num : Rat → Json
  | str : String → Json
  | arr : List Json → Json
  | obj : List (String × Json) → Json

/-- Python exception kinds that can arise in the consumer's code paths.
`dbError` stands for `psycopg2.Error`; `requestException` for
`requests.RequestException` (always caught locally where it can arise). -/
inductive PyErr where
  | attrError
  | typeError
  | valueError
  | indexError
  | jsonDecodeError
  | keyError
  | unicodeDecodeError
  | dbError
deriving DecidableEq

/-- Association-list lookup on a decoded Python dict body. -/
def objLookup (kvs : List (String × Json)) (k : String) : Option Json :=
  match kvs with
  | [] => none
  | (k', v) :: rest => if k' = k then some v else objLookup rest k

/-- Python `d.get(key, default)`: `AttributeError` when the receiver is not a
dict, otherwise the stored value or the default. -/
def pyGetD (j : Json) (k : String) (d : Json) : Except PyErr Json :=
  match j with
  | .obj kvs => .ok ((objLookup kvs k).getD d)
  | _ => .error .attrError

/-- Python truthiness of a value: `None`, `False`, `0`, `""`, `[]`, `{}`
are falsy, everything else truthy. -/
def pyTruthy : Json → Bool
  | .null => false
  | .bool b => b
  | .num q => q ≠ 0
  | .str s => s ≠ ""
  | .arr xs => ¬ xs.isEmpty
  | .obj kvs => ¬ kvs.isEmpty

/-- Python `len(x)`: length for strings, lists and dicts, `TypeError`
otherwise. -/
def pyLen : Json → Except PyErr Nat
  | .str s => .ok s.length
  | .arr xs => .ok xs.length
  | .obj kvs => .ok kvs.length
  | _ => .error .typeError

/-- Python `s.strip(chars)` on a string: drop the given characters from both
ends. -/
def stripChars (s : String) (cs : List Char) : String :=
  String.mk (((s.data.dropWhile (cs.contains ·)).reverse.dropWhile (cs.contains ·)).reverse)

/-- Python `s.strip()`: drop whitespace from both ends. -/
def pyStripWs (s : String) : String :=
  String.mk (((s.data.dropWhile Char.isWhitespace).reverse.dropWhile Char.isWhitespace).reverse)

/-- Python `s.lower()`: lowercase character by character. -/
def pyLower (s : String) : String :=
  String.mk (s.data.map Char.toLower)

/-- Parse a decimal string as Python `float(...)` does, restricted to the
plain `[+|-]digits[.digits]` forms that matter here (no exponent/inf forms). -/
def floatOfChars : List Char → Option Rat
  | [] => none
  | cs =>
    let (sign, rest) :=
      match cs with
      | '-' :: r => ((-1 : Rat), r)
      | '+' :: r => ((1 : Rat), r)
      | r => ((1 : Rat), r)
    let intPart := rest.takeWhile (·.isDigit)
    let rest2 := rest.dropWhile (·.isDigit)
    match rest2 with
    | [] =>
      if intPart.isEmpty then none
      else some (sign * (intPart.foldl (fun a c => a * 10 + (c.toNat - 48)) 0 : Nat))
    | '.' :: frac =>
      if ¬ frac.all (·.isDigit) then none
      else if intPart.isEmpty ∧ frac.isEmpty then none
      else
        let ip : Nat := intPart.foldl (fun a c => a * 10 + (c.toNat - 48)) 0
        let fp : Nat := frac.foldl (fun a c => a * 10 + (c.toNat - 48)) 0
        some (sign * ((ip : Rat) + (fp : Rat) / ((10 : Rat) ^ frac.length)))
    | _ => none

/-- Python `float(x)`: numbers pass through, booleans become 0/1, strings are
parsed (`ValueError` on failure), everything else is a `TypeError`. -/
def pyFloat : Json → Except PyErr Rat
  | .num q => .ok q
  | .bool b => .ok (if b then 1 else 0)
  | .str s =>
    match floatOfChars ((pyStripWs s).data) with
    | some q => .ok q
    | none => .error .valueError
  | _ => .error .typeError

/-- Python `x[0]`: first element of a list (`IndexError` when empty), first
character of a string, `KeyError`/`TypeError` for dicts and scalars. -/
def pySubscriptZero : Json → Except PyErr Json
  | .arr [] => .error .indexError
  | .arr (x :: _) => .ok x
  | .str s =>
    match s.data with
    | [] => .error .indexError
    | c :: _ => .ok (.str (String.mk [c]))
  | .obj _ => .error .keyError
  | _ => .error .typeError

/-- Python `x.upper()`: `AttributeError` unless the receiver is a string;
uppercase character by character. -/
def pyUpper : Json → Except PyErr String
  | .str s => .ok (String.mk (s.data.map Char.toUpper))
  | _ => .error .attrError


/-- Python `str(x)` as used when interpolating into f-strings. Strings render
as themselves (the only case the claims exercise); other values get a
simple printable rendering. -/
def pyStr : Json → String
  | .null => "None"
  | .bool b => if b then "True" else "False"
  | .num q => toString q
  | .str s => s
  | .arr _ => "<list>"
  | .obj _ => "<dict>"

/-- Observable side effects of one main-loop iteration, in order. -/
inductive Effect where
  | netGeo
  | netProfile
  | dbExec
  | dbCommit
  | dbRollback
  | dbReconnect
  | offsetCommit
deriving DecidableEq

/-- Python `==` as used on dict keys (`username in user_cache`):
equality on `None`/booleans/numbers/strings, with `True == 1`. -/
def pyKeyEq : Json → Json → Bool
  | .null, .null => true
  | .bool a, .bool b => a = b
  | .bool a, .num q => (if a then (1 : Rat) else 0) = q
  | .num q, .bool b => q = (if b then (1 : Rat) else 0)
  | .num p, .num q => p = q
  | .str s, .str t => s = t
  | _, _ => false

/-- `username in user_cache` / `user_cache[username]`: `TypeError` for
unhashable keys (lists, dicts), otherwise the first matching entry. -/
def ucLookup (c : List (Json × Json)) (k : Json) : Except PyErr (Option Json) :=
  match k with
  | .arr _ => .error .typeError
  | .obj _ => .error .typeError
  | _ =>
    match c with
    | [] => .ok none
    | (k', v) :: rest => if pyKeyEq k' k then .ok (some v) else
        match ucLookup rest k with
        | .ok r => .ok r
        | .error e => .error e

/-- Python dict assignment `d[k] = v`: replace in place, append when absent. -/
def objSet : List (String × Json) → String → Json → List (String × Json)
  | [], k, v => [(k, v)]
  | (k', v') :: rest, k, v =>
    if k' = k then (k, v) :: rest else (k', v') :: objSet rest k v

/-- `location.lower().strip()`: `AttributeError` unless the receiver is a
string. -/
def pyLowerStrip : Json → Except PyErr String
  | .str s => .ok (pyStripWs (pyLower s))
  | _ => .error .attrError

/-- The response of one external HTTP request, as the consumer observes it:
`none` for `requests.RequestException` (transport failure, including a
response body that fails JSON decoding), otherwise the status code and the
JSON-decoded body. -/
abbrev HttpResp := Option (Nat × Json)

/-- The module-level `geocode_cache` (normalized location → result dict). -/
abbrev GeoCache := List (String × Json)

/-- The module-level `user_cache` (login → profile dict). -/
abbrev UserCache := List (Json × Json)

/-- The body of `geocode`'s `try` block given the response: maps the best
hit's address fields into the result dict; any failure branch (non-200,
no hits, transport error) leaves the result as the empty dict `{}`. -/
def geocodeResult (resp : HttpResp) : Except PyErr Json :=
  match resp with
  | none => .ok (.obj [])
  | some (status, body) =>
    if status = 200 then
      if pyTruthy body then do
        let h ← pySubscriptZero body
        let adr ← pyGetD h "address" (.obj [])
        let country ← pyGetD adr "country" .null
        let ccRaw ← pyGetD adr "country_code" .null
        let u ← pyUpper (if pyTruthy ccRaw then ccRaw else .str "")
        let cc2 := String.mk (u.data.take 2)
        let latF ← pyFloat (← pyGetD h "lat" (.num 0))
        let lonF ← pyFloat (← pyGetD h "lon" (.num 0))
        .ok (.obj
          [("country", country),
           ("country_code", if cc2 = "" then .null else .str cc2),
           ("lat", if latF = 0 then .null else .num latF),
           ("lng", if lonF = 0 then .null else .num lonF)])
      else .ok (.obj [])
    else .ok (.obj [])

/-- `geocode(location)`: empty input short-circuits to `{}`; otherwise the
cache keyed by `location.lower().strip()` is consulted, and on a miss one
network request is issued and its (possibly all-null) result is cached.
The post-call `time.sleep(1.1)` rate-limit pause has no data effect and is
not modelled. Returns the effect trace and the result with the new cache. -/
def geocode (resp : HttpResp) (cache : GeoCache) (location : Json) :
    List Effect × Except PyErr (Json × GeoCache) :=
  if ¬ pyTruthy location then ([], .ok (.obj [], cache))
  else
    match pyLowerStrip location with
    | .error e => ([], .error e)
    | .ok key =>
      match objLookup cache key with
      | some v => ([], .ok (v, cache))
      | none =>
        match geocodeResult resp with
        | .ok result => ([.netGeo], .ok (result, (key, result) :: cache))
        | .error e => ([.netGeo], .error e)

/-- The fresh all-null profile dict built at the top of `fetch_profile`. -/
def emptyProfile : List (String × Json) :=
  [("location", .null), ("company", .null), ("public_repos", .null),
   ("country", .null), ("country_code", .null), ("lat", .null), ("lng", .null)]

/-- The body of `fetch_profile`'s `try` block given the response: on a 200
response copy location/company/public_repos (with Python's `or`-based
normalisation) into the profile; any other outcome leaves it all-null. -/
def profileFetched (resp : HttpResp) : Except PyErr (List (String × Json)) :=
  match resp with
  | none => .ok emptyProfile
  | some (status, d) =>
    if status = 200 then do
      let locRaw ← pyGetD d "location" .null
      let loc : Json := if pyTruthy locRaw then locRaw else .null
      let compRaw ← pyGetD d "company" .null
      let compStr ←
        match (if pyTruthy compRaw then compRaw else .str "") with
        | .str s => Except.ok s
        | _ => Except.error PyErr.attrError
      let comp1 := pyStripWs (stripChars compStr ['@', ' '])
      let comp : Json := if comp1 = "" then .null else .str comp1
      let repos ← pyGetD d "public_repos" .null
      .ok (objSet (objSet (objSet emptyProfile "location" loc)
            "company" comp) "public_repos" repos)
    else .ok emptyProfile

/-- `profile.update({k: geo.get(k) for k in ("country","country_code","lat","lng")})`. -/
def mergeGeo (prof : List (String × Json)) (geo : Json) :
    Except PyErr (List (String × Json)) := do
  let c ← pyGetD geo "country" .null
  let cc ← pyGetD geo "country_code" .null
  let la ← pyGetD geo "lat" .null
  let ln ← pyGetD geo "lng" .null
  .ok (objSet (objSet (objSet (objSet prof "country" c) "country_code" cc)
        "lat" la) "lng" ln)

/-- `fetch_profile(username)`: cached profiles are returned with no network
traffic; otherwise one identity-API request is made, a non-empty location
triggers `geocode`, and the resulting profile (successful or all-null) is
stored in `user_cache` unconditionally. Returns the effect trace and the
profile together with both updated caches. -/
def fetch_profile (uresp gresp : HttpResp) (ucache : UserCache)
    (gcache : GeoCache) (username : Json) :
    List Effect × Except PyErr (Json × UserCache × GeoCache) :=
  match ucLookup ucache username with
  | .error e => ([], .error e)
  | .ok (some p) => ([], .ok (p, ucache, gcache))
  | .ok none =>
    match profileFetched uresp with
    | .error e => ([.netProfile], .error e)
    | .ok prof =>
      let loc := (objLookup prof "location").getD .null
      if pyTruthy loc then
        match geocode gresp gcache loc with
        | (eff, .error e) => (.netProfile :: eff, .error e)
        | (eff, .ok (geo, gcache')) =>
          match mergeGeo prof geo with
          | .error e => (.netProfile :: eff, .error e)
          | .ok prof' =>
            (.netProfile :: eff,
             .ok (.obj prof', (username, .obj prof') :: ucache, gcache'))
      else
        ([.netProfile], .ok (.obj prof, (username, .obj prof) :: ucache, gcache))

/-- Python `x == "lit"` as used on the event-type tag. -/
def jsonIsStr (j : Json) (s : String) : Bool :=
  match j with
  | .str t => t = s
  | _ => false

/-- `extract_detail(event)`: the per-event-type detail derivation. Returns a
`Json` value because the action branches return the raw payload field. -/
def extract_detail (event : Json) : Except PyErr Json := do
  let etype ← pyGetD event "type" (.str "")
  let payload ← pyGetD event "payload" (.obj [])
  if jsonIsStr etype "PushEvent" then do
    let commits ← pyGetD payload "commits" (.arr [])
    let n ← pyLen commits
    .ok (.str (toString n ++ " commit(s)"))
  else if jsonIsStr etype "PullRequestEvent" ∨ jsonIsStr etype "IssuesEvent" then
    pyGetD payload "action" (.str "")
  else if jsonIsStr etype "CreateEvent" then do
    let rt ← pyGetD payload "ref_type" (.str "")
    let rf ← pyGetD payload "ref" (.str "")
    .ok (.str (pyStr rt ++ " '" ++ pyStr rf ++ "'"))
  else if jsonIsStr etype "WatchEvent" then
    pyGetD payload "action" (.str "starred")
  else if jsonIsStr etype "ReleaseEvent" then do
    let rel ← pyGetD payload "release" (.obj [])
    let tn ← pyGetD rel "tag_name" (.str "")
    .ok (.str ("tag " ++ pyStr tn))
  else
    .ok (.str "")

/-- A parsed UTC timestamp (the fields `datetime.strptime` validates). -/
structure DateTime where
  year : Nat
  month : Nat
  day : Nat
  hour : Nat
  minute : Nat
  second : Nat
deriving DecidableEq

/-- Numeric value of a digit string. -/
def digitsVal (ds : List Char) : Nat :=
  ds.foldl (fun a c => a * 10 + (c.toNat - 48)) 0

/-- Greedily read one or two digits (the `%m/%d/%H/%M/%S` directives). -/
def grab2 : List Char → Option (Nat × List Char)
  | [] => none
  | [c] => if c.isDigit then some (c.toNat - 48, []) else none
  | c1 :: c2 :: rest =>
    if c1.isDigit then
      if c2.isDigit then some (digitsVal [c1, c2], rest)
      else some (c1.toNat - 48, c2 :: rest)
    else none

/-- Require a literal character. -/
def expectChar (c : Char) : List Char → Option (List Char)
  | [] => none
  | c' :: rest => if c' = c then some rest else none

/-- Days in a month, with Gregorian leap years (`datetime`'s validation). -/
def daysInMonth (y m : Nat) : Nat :=
  if m = 2 then
    if y % 4 = 0 ∧ (y % 100 ≠ 0 ∨ y % 400 = 0) then 29 else 28
  else if m = 4 ∨ m = 6 ∨ m = 9 ∨ m = 11 then 30
  else 31

/-- `datetime.strptime(s, "%Y-%m-%dT%H:%M:%SZ")`: four-digit year, one-or-two
digit month/day/hour/minute/second around the literal separators, the whole
string consumed, and the `datetime` constructor's range checks; `none` models
the `ValueError` raised on any mismatch. -/
def parseTs (s : String) : Option DateTime :=
  match s.data with
  | y1 :: y2 :: y3 :: y4 :: rest =>
    if y1.isDigit ∧ y2.isDigit ∧ y3.isDigit ∧ y4.isDigit then do
      let year := digitsVal [y1, y2, y3, y4]
      let rest ← expectChar '-' rest
      let (month, rest) ← grab2 rest
      let rest ← expectChar '-' rest
      let (day, rest) ← grab2 rest
      let rest ← expectChar 'T' rest
      let (hour, rest) ← grab2 rest
      let rest ← expectChar ':' rest
      let (minute, rest) ← grab2 rest
      let rest ← expectChar ':' rest
      let (second, rest) ← grab2 rest
      let rest ← expectChar 'Z' rest
      if rest = [] ∧ 1 ≤ year ∧ 1 ≤ month ∧ month ≤ 12 ∧
          1 ≤ day ∧ day ≤ daysInMonth year month ∧
          hour ≤ 23 ∧ minute ≤ 59 ∧ second ≤ 59 then
        some ⟨year, month, day, hour, minute, second⟩
      else none
    else none
  | _ => none

/-- One row of the `events` table, as bound by `write_event`. -/
structure Row where
  time : DateTime
  event_id : Json
  event_type : Json
  actor : Json
  repo : Json
  detail : Json
  location : Json
  country : Json
  country_code : Json
  lat : Json
  lng : Json
  company : Json
  public_repos : Json
  payload : Json

/-- The `time` parameter: `strptime` of `event.get("created_at", "")` with
the `except ValueError` fallback to the current wall-clock time `now`;
`strptime` on a non-string argument raises `TypeError`, which is not caught. -/
def rowTime (now : DateTime) (event : Json) : Except PyErr DateTime := do
  let tsRaw ← pyGetD event "created_at" (.str "")
  match tsRaw with
  | .str s => .ok ((parseTs s).getD now)
  | _ => .error .typeError

/-- The parameter dict of `write_event`'s `cur.execute(INSERT_SQL, ...)`. -/
def buildRow (now : DateTime) (event profile : Json) : Except PyErr Row := do
  let time ← rowTime now event
  let id ← pyGetD event "id" .null
  let etype ← pyGetD event "type" .null
  let actorObj ← pyGetD event "actor" (.obj [])
  let actor ← pyGetD actorObj "login" .null
  let repoObj ← pyGetD event "repo" (.obj [])
  let repo ← pyGetD repoObj "name" .null
  let detail ← extract_detail event
  let location ← pyGetD profile "location" .null
  let country ← pyGetD profile "country" .null
  let country_code ← pyGetD profile "country_code" .null
  let lat ← pyGetD profile "lat" .null
  let lng ← pyGetD profile "lng" .null
  let company ← pyGetD profile "company" .null
  let public_repos ← pyGetD profile "public_repos" .null
  let payload ← pyGetD event "payload" (.obj [])
  .ok ⟨time, id, etype, actor, repo, detail, location, country, country_code,
       lat, lng, company, public_repos, payload⟩

/-- SQL scalar equality on the `event_id` key as the unique index sees it:
`NULL` (a missing id) compares unequal to everything, so only equal non-null
ids conflict. -/
def sqlEqId : Json → Json → Bool
  | .str a, .str b => a = b
  | .num a, .num b => a = b
  | .bool a, .bool b => a = b
  | _, _ => false

/-- `INSERT ... ON CONFLICT DO NOTHING` against the unique `event_id` index:
a conflicting row makes the statement a silent no-op. -/
def dbInsert (db : List Row) (row : Row) : List Row :=
  if db.any (fun r => sqlEqId r.event_id row.event_id) then db else db ++ [row]

/-- Number of stored rows carrying the given event id. -/
def countId (db : List Row) (id : Json) : Nat :=
  (db.filter (fun r => sqlEqId r.event_id id)).length

/-- A sample stored row (used to instantiate theorems at concrete inputs). -/
def demoRow : Row :=
  ⟨⟨2024, 1, 2, 3, 4, 5⟩, .str "e1", .str "WatchEvent", .str "alice", .str "r",
   .str "starred", .null, .null, .null, .null, .null, .null, .null, .obj []⟩

/-- The body of one polled Kafka message, as the consumer decodes it:
invalid UTF-8 bytes (`.decode("utf-8")` raises `UnicodeDecodeError`),
valid UTF-8 that is not JSON (`json.loads` raises `JSONDecodeError`),
or the decoded JSON value. -/
inductive MsgBody where
  | badUtf8
  | badJson
  | json (event : Json)

/-- The outcome of one `consumer.poll`: timeout (`None`), a broker error
(partition-EOF or other), a message, or a `KeyboardInterrupt` delivered
while waiting. -/
inductive PolledMsg where
  | timeout
  | kafkaError (partitionEof : Bool)
  | msg (body : MsgBody)
  | interrupt

/-- The mutable state of the main loop: the two module-level caches, the
committed contents of the `events` table, and the two counters. -/
structure LoopState where
  ucache : UserCache
  gcache : GeoCache
  db : List Row
  processed : Nat
  errors : Nat

/-- The external inputs of one loop iteration: the polled message, the two
HTTP responses that would answer this iteration's lookups, the current
wall-clock time, and whether the insert / transaction commit succeed. -/
structure StepIn where
  poll : PolledMsg
  uresp : HttpResp
  gresp : HttpResp
  now : DateTime
  dbExecOk : Bool
  dbCommitOk : Bool

/-- How one iteration ends: loop again, terminate with an uncaught
exception, or orderly shutdown on the interrupt signal. -/
inductive StepOut where
  | continued (st : LoopState)
  | crashed (e : PyErr) (st : LoopState)
  | shutdown (st : LoopState)

/-- The `try` block of the main loop for one message: decode, parse, enrich
(cache mutations persist because the caches are module-level globals),
build and execute the insert, commit the transaction, then commit the
offset synchronously. Returns the effects, the state, and the raised
exception if any. -/
def processBody (inp : StepIn) (st : LoopState) (body : MsgBody) :
    List Effect × LoopState × Option PyErr :=
  match body with
  | .badUtf8 => ([], st, some .unicodeDecodeError)
  | .badJson => ([], st, some .jsonDecodeError)
  | .json event =>
    match (do
        let actorObj ← pyGetD event "actor" (.obj [])
        pyGetD actorObj "login" (.str "")) with
    | .error e => ([], st, some e)
    | .ok actor =>
      match fetch_profile inp.uresp inp.gresp st.ucache st.gcache actor with
      | (eff, .error e) => (eff, st, some e)
      | (eff, .ok (profile, uc', gc')) =>
        let st1 := { st with ucache := uc', gcache := gc' }
        match buildRow inp.now event profile with
        | .error e => (eff, st1, some e)
        | .ok row =>
          if ¬ inp.dbExecOk then (eff ++ [.dbExec], st1, some .dbError)
          else if ¬ inp.dbCommitOk then (eff ++ [.dbExec], st1, some .dbError)
          else
            (eff ++ [.dbExec, .dbCommit, .offsetCommit],
             { st1 with db := dbInsert st1.db row,
                        processed := st1.processed + 1 },
             none)

/-- One iteration of the `while True` loop, with its `except` clauses:
`(json.JSONDecodeError, KeyError)` → rollback and count the error;
`psycopg2.Error` → rollback, reconnect with blocking retry, count the
error; any other exception propagates and terminates the loop;
`KeyboardInterrupt` shuts down. -/
def step (inp : StepIn) (st : LoopState) : StepOut × List Effect :=
  match inp.poll with
  | .interrupt => (.shutdown st, [])
  | .timeout => (.continued st, [])
  | .kafkaError eof =>
    if eof then (.continued st, [])
    else (.continued { st with errors := st.errors + 1 }, [])
  | .msg body =>
    match processBody inp st body with
    | (eff, st', none) => (.continued st', eff)
    | (eff, st', some e) =>
      if e = .jsonDecodeError ∨ e = .keyError then
        (.continued { st' with errors := st'.errors + 1 }, eff ++ [.dbRollback])
      else if e = .dbError then
        (.continued { st' with errors := st'.errors + 1 },
         eff ++ [.dbRollback, .dbReconnect])
      else
        (.crashed e st', eff)

/-- An event carrying just a type tag and a payload: `extract_detail` reads
nothing else, so its behaviour on these events is its whole behaviour. -/
def mkEvent (t : String) (p : Json) : Json :=
  .obj [("type", .str t), ("payload", p)]

/-- A fresh loop state (used to instantiate theorems at concrete inputs). -/
def demoState : LoopState := ⟨[], [], [], 0, 0⟩

/-- A well-formed queue event (used to instantiate theorems). -/
def demoEvent : Json :=
  .obj [("id", .str "e1"), ("type", .str "WatchEvent"),
        ("actor", .obj [("login", .str "alice")]),
        ("repo", .obj [("name", .str "r")]),
        ("payload", .obj []),
        ("created_at", .str "2024-01-02T03:04:05Z")]

/-- Iteration inputs delivering `demoEvent` with failing lookups and a
healthy database. -/
def demoIn : StepIn :=
  { poll := .msg (.json demoEvent), uresp := none, gresp := none,
    now := ⟨2024, 1, 1, 0, 0, 0⟩, dbExecOk := true, dbCommitOk := true }

/-- Iteration inputs delivering a valid-UTF-8 but non-JSON message body. -/
def demoBadJsonIn : StepIn :=
  { poll := .msg .badJson, uresp := none, gresp := none,
    now := ⟨2024, 1, 1, 0, 0, 0⟩, dbExecOk := true, dbCommitOk := true }

/-- Iteration inputs delivering a message body that is not valid UTF-8. -/
def demoBadUtf8In : StepIn :=
  { poll := .msg .badUtf8, uresp := none, gresp := none,
    now := ⟨2024, 1, 1, 0, 0, 0⟩, dbExecOk := true, dbCommitOk := true }

/-! ## Helper lemmas -/

theorem countId_append (db1 db2 : List Row) (id : Json) :
    countId (db1 ++ db2) id = countId db1 id + countId db2 id := by
  simp [countId, List.filter_append]

theorem countId_pos_iff (db : List Row) (id : Json) :
    0 < countId db id ↔ (db.any fun r => sqlEqId r.event_id id) = true := by
  simp [countId, List.length_pos, List.any_eq_true, List.filter_eq_nil_iff]

theorem dbInsert_noop (d : List Row) (row : Row) (id : Json)
    (hrow : row.event_id = id) (h : 0 < countId d id) : dbInsert d row = d := by
  have hany := (countId_pos_iff d id).mp h
  simp [dbInsert, hrow, hany]

theorem dbInsert_new (d : List Row) (row : Row) (id : Json)
    (hrow : row.event_id = id) (h : countId d id = 0) :
    dbInsert d row = d ++ [row] := by
  have hany : (d.any fun r => sqlEqId r.event_id id) = false := by
    by_contra hc
    have : 0 < countId d id := (countId_pos_iff d id).mpr (by
      cases hb : d.any fun r => sqlEqId r.event_id id
      · exact absurd hb hc
      · rfl)
    omega
  simp [dbInsert, hrow, hany]

theorem countId_foldl_stable (rows : List Row) (d : List Row) (s : String)
    (h1 : countId d (.str s) = 1) (hid : ∀ r ∈ rows, r.event_id = .str s) :
    countId (rows.foldl dbInsert d) (.str s) = 1 := by
  induction rows generalizing d with
  | nil => simpa using h1
  | cons r rest ih =>
    have hr : r.event_id = .str s := hid r (by simp)
    have : dbInsert d r = d := dbInsert_noop d r (.str s) hr (by omega)
    rw [List.foldl_cons, this]
    exact ih d h1 (fun x hx => hid x (by simp [hx]))

/-! ## Claim theorems -/

/-- C2: persistence is idempotent per event id. Running the conflict-skip
insert for any non-empty sequence of rows carrying the same event id over a
store with no row for that id leaves exactly one stored row with that id;
and an insert whose id already exists is a silent no-op (the existing row
is never overwritten). -/
theorem persist_idempotent_per_id (db : List Row) (rows : List Row) (s : String)
    (hid : ∀ r ∈ rows, r.event_id = .str s) (hne : rows ≠ [])
    (h0 : countId db (.str s) = 0) :
    countId (rows.foldl dbInsert db) (.str s) = 1
    ∧ ∀ (d : List Row) (row : Row), row.event_id = .str s →
        0 < countId d (.str s) → dbInsert d row = d := by
  constructor
  · match rows, hne with
    | r :: rest, _ =>
      have hr : r.event_id = .str s := hid r (by simp)
      rw [List.foldl_cons, dbInsert_new db r (.str s) hr h0]
      have h1 : countId (db ++ [r]) (.str s) = 1 := by
        rw [countId_append, h0]
        simp [countId, hr, sqlEqId]
      exact countId_foldl_stable rest (db ++ [r]) s h1
        (fun x hx => hid x (by simp [hx]))
  · intro d row hrow hpos
    exact dbInsert_noop d row (.str s) hrow hpos

/-- C2 witness: two inserts of rows with id "e1" into an empty store leave
exactly one row with that id. -/
theorem persist_idempotent_per_id_witness :
    (∀ r ∈ [demoRow, demoRow], r.event_id = Json.str "e1")
    ∧ ([demoRow, demoRow] : List Row) ≠ []
    ∧ countId [] (.str "e1") = 0
    ∧ countId ([demoRow, demoRow].foldl dbInsert []) (.str "e1") = 1 :=
  ⟨by intro r hr; rw [show r = demoRow from by simpa using hr]; exact rfl,
   by simp,
   rfl,
   (persist_idempotent_per_id [] [demoRow, demoRow] "e1"
      (by intro r hr; rw [show r = demoRow from by simpa using hr]; exact rfl)
      (by simp) rfl).1⟩

/-- C8: the detail derivation follows the specified table, as a pure function
of the event type and the payload: push → "<N> commit(s)" with N the length
of the commits list; pull-request/issues → the payload's action field;
create → "<ref_type> '<ref>'"; watch → the action field defaulting to
"starred"; release → "tag <tag_name>"; any other type → "". -/
theorem detail_follows_table :
    (∀ (xs : List Json) (p : List (String × Json)),
       objLookup p "commits" = some (.arr xs) →
       extract_detail (mkEvent "PushEvent" (.obj p)) =
         .ok (.str (toString xs.length ++ " commit(s)")))
  ∧ (∀ (a : Json) (p : List (String × Json)),
       objLookup p "action" = some a →
       extract_detail (mkEvent "PullRequestEvent" (.obj p)) = .ok a)
  ∧ (∀ (a : Json) (p : List (String × Json)),
       objLookup p "action" = some a →
       extract_detail (mkEvent "IssuesEvent" (.obj p)) = .ok a)
  ∧ (∀ (rt rf : String) (p : List (String × Json)),
       objLookup p "ref_type" = some (.str rt) →
       objLookup p "ref" = some (.str rf) →
       extract_detail (mkEvent "CreateEvent" (.obj p)) =
         .ok (.str (rt ++ " '" ++ rf ++ "'")))
  ∧ (∀ (a : Json) (p : List (String × Json)),
       objLookup p "action" = some a →
       extract_detail (mkEvent "WatchEvent" (.obj p)) = .ok a)
  ∧ (∀ (p : List (String × Json)),
       objLookup p "action" = none →
       extract_detail (mkEvent "WatchEvent" (.obj p)) = .ok (.str "starred"))
  ∧ (∀ (tn : String) (p rel : List (String × Json)),
       objLookup p "release" = some (.obj rel) →
       objLookup rel "tag_name" = some (.str tn) →
       extract_detail (mkEvent "ReleaseEvent" (.obj p)) =
         .ok (.str ("tag " ++ tn)))
  ∧ (∀ (t : String) (p : List (String × Json)),
       t ∉ ["PushEvent", "PullRequestEvent", "IssuesEvent", "CreateEvent",
            "WatchEvent", "ReleaseEvent"] →
       extract_detail (mkEvent t (.obj p)) = .ok (.str "")) := by
  refine ⟨?_, ?_, ?_, ?_, ?_, ?_, ?_, ?_⟩
  · intro xs p h
    simp [extract_detail, mkEvent, Bind.bind, Except.bind, pyGetD, objLookup, jsonIsStr, h, pyLen, pyStr]
  · intro a p h
    simp [extract_detail, mkEvent, Bind.bind, Except.bind, pyGetD, objLookup, jsonIsStr, h]
  · intro a p h
    simp [extract_detail, mkEvent, Bind.bind, Except.bind, pyGetD, objLookup, jsonIsStr, h]
  · intro rt rf p h1 h2
    simp [extract_detail, mkEvent, Bind.bind, Except.bind, pyGetD, objLookup, jsonIsStr, h1, h2, pyStr]
  · intro a p h
    simp [extract_detail, mkEvent, Bind.bind, Except.bind, pyGetD, objLookup, jsonIsStr, h]
  · intro p h
    simp [extract_detail, mkEvent, Bind.bind, Except.bind, pyGetD, objLookup, jsonIsStr, h]
  · intro tn p rel h1 h2
    simp [extract_detail, mkEvent, Bind.bind, Except.bind, pyGetD, objLookup, jsonIsStr, h1, h2, pyStr]
  · intro t p ht
    simp only [List.mem_cons, List.not_mem_nil, or_false, not_or] at ht
    obtain ⟨h1, h2, h3, h4, h5, h6⟩ := ht
    simp [extract_detail, mkEvent, Bind.bind, Except.bind, pyGetD, objLookup, jsonIsStr, h1, h2, h3, h4, h5, h6]

/-- C8 witness: the spec's concrete examples — a push with 3 commits, a watch
with empty payload, a release with tag v2.0, a create of branch main. -/
theorem detail_follows_table_witness :
    extract_detail (mkEvent "PushEvent" (.obj [("commits", .arr [.null, .null, .null])]))
      = .ok (.str "3 commit(s)")
    ∧ extract_detail (mkEvent "WatchEvent" (.obj [])) = .ok (.str "starred")
    ∧ extract_detail (mkEvent "ReleaseEvent"
        (.obj [("release", .obj [("tag_name", .str "v2.0")])])) = .ok (.str "tag v2.0")
    ∧ extract_detail (mkEvent "CreateEvent"
        (.obj [("ref_type", .str "branch"), ("ref", .str "main")]))
      = .ok (.str "branch 'main'")
    ∧ extract_detail (mkEvent "GollumEvent" (.obj [])) = .ok (.str "") :=
  ⟨detail_follows_table.1 [.null, .null, .null] [("commits", .arr [.null, .null, .null])] rfl,
   (detail_follows_table.2.2.2.2.2.1) [] rfl,
   (detail_follows_table.2.2.2.2.2.2.1) "v2.0"
     [("release", .obj [("tag_name", .str "v2.0")])] [("tag_name", .str "v2.0")] rfl rfl,
   (detail_follows_table.2.2.2.1) "branch" "main"
     [("ref_type", .str "branch"), ("ref", .str "main")] rfl rfl,
   (detail_follows_table.2.2.2.2.2.2.2) "GollumEvent" [] (by decide)⟩

theorem bindOkInv {α β : Type} {x : Except PyErr α} {f : α → Except PyErr β}
    {b : β} (h : (x >>= f) = .ok b) : ∃ a, x = .ok a ∧ f a = .ok b := by
  cases x with
  | ok a => exact ⟨a, rfl, by simpa [Bind.bind, Except.bind] using h⟩
  | error e => simp [Bind.bind, Except.bind] at h

theorem nvBind {α β : Type} {x : Except PyErr α} {f : α → Except PyErr β}
    (hx : ∀ e, x = .error e → e ≠ PyErr.valueError)
    (hf : ∀ a e, f a = .error e → e ≠ PyErr.valueError) :
    ∀ e, (x >>= f) = .error e → e ≠ PyErr.valueError := by
  intro e h
  cases x with
  | ok a => exact hf a e (by simpa [Bind.bind, Except.bind] using h)
  | error e' =>
    have : e' = e := by simpa [Bind.bind, Except.bind] using h
    exact this ▸ hx e' rfl

theorem nvPyGetD (j : Json) (k : String) (d : Json) :
    ∀ e, pyGetD j k d = .error e → e ≠ PyErr.valueError := by
  intro e h
  cases j <;> simp [pyGetD] at h <;> simp [← h]

theorem nvPyLen (j : Json) :
    ∀ e, pyLen j = .error e → e ≠ PyErr.valueError := by
  intro e h
  cases j <;> simp [pyLen] at h <;> simp [← h]

theorem nvOk {α : Type} (a : α) :
    ∀ e, (Except.ok a : Except PyErr α) = .error e → e ≠ PyErr.valueError := by
  intro e h
  simp at h

theorem nvExtractDetail (ev : Json) :
    ∀ e, extract_detail ev = .error e → e ≠ PyErr.valueError := by
  unfold extract_detail
  apply nvBind (nvPyGetD _ _ _)
  intro etype
  apply nvBind (nvPyGetD _ _ _)
  intro payload
  split
  · apply nvBind (nvPyGetD _ _ _)
    intro commits
    exact nvBind (nvPyLen _) (fun n => nvOk _)
  · split
    · exact nvPyGetD _ _ _
    · split
      · apply nvBind (nvPyGetD _ _ _)
        intro rt
        exact nvBind (nvPyGetD _ _ _) (fun rf => nvOk _)
      · split
        · exact nvPyGetD _ _ _
        · split
          · apply nvBind (nvPyGetD _ _ _)
            intro rel
            exact nvBind (nvPyGetD _ _ _) (fun tn => nvOk _)
          · exact nvOk _

theorem nvRowTime (now : DateTime) (ev : Json) :
    ∀ e, rowTime now ev = .error e → e ≠ PyErr.valueError := by
  unfold rowTime
  apply nvBind (nvPyGetD _ _ _)
  intro tsRaw e h
  cases tsRaw <;> simp at h <;> simp [← h]

theorem buildRow_no_valueError (now : DateTime) (event profile : Json) :
    ∀ e, buildRow now event profile = .error e → e ≠ PyErr.valueError := by
  unfold buildRow
  apply nvBind (nvRowTime _ _); intro time
  apply nvBind (nvPyGetD _ _ _); intro id
  apply nvBind (nvPyGetD _ _ _); intro etype
  apply nvBind (nvPyGetD _ _ _); intro actorObj
  apply nvBind (nvPyGetD _ _ _); intro actor
  apply nvBind (nvPyGetD _ _ _); intro repoObj
  apply nvBind (nvPyGetD _ _ _); intro repo
  apply nvBind (nvExtractDetail _); intro detail
  apply nvBind (nvPyGetD _ _ _); intro location
  apply nvBind (nvPyGetD _ _ _); intro country
  apply nvBind (nvPyGetD _ _ _); intro country_code
  apply nvBind (nvPyGetD _ _ _); intro lat
  apply nvBind (nvPyGetD _ _ _); intro lng
  apply nvBind (nvPyGetD _ _ _); intro company
  apply nvBind (nvPyGetD _ _ _); intro public_repos
  exact nvBind (nvPyGetD _ _ _) (fun payload => nvOk _)

/-- C9: `write_event` parses `created_at` with the expected UTC format; when
the parse fails it substitutes the given current wall-clock time `now`, and
a timestamp format error (`ValueError`) never makes the write fail: the row
build never raises one. -/
theorem write_timestamp_fallback (now : DateTime) (kvs : List (String × Json))
    (profile : Json) (s : String)
    (hts : objLookup kvs "created_at" = some (.str s))
    (hfail : parseTs s = none) :
    rowTime now (.obj kvs) = .ok now
    ∧ (∀ e, buildRow now (.obj kvs) profile = .error e → e ≠ PyErr.valueError)
    ∧ (∀ row, buildRow now (.obj kvs) profile = .ok row → row.time = now) := by
  have hrt : rowTime now (.obj kvs) = .ok now := by
    simp [rowTime, pyGetD, hts, Bind.bind, Except.bind, hfail]
  refine ⟨hrt, buildRow_no_valueError now (.obj kvs) profile, ?_⟩
  intro row h
  unfold buildRow at h
  obtain ⟨time, htime, h⟩ := bindOkInv h
  rw [hrt] at htime
  obtain ⟨id, _, h⟩ := bindOkInv h
  obtain ⟨etype, _, h⟩ := bindOkInv h
  obtain ⟨actorObj, _, h⟩ := bindOkInv h
  obtain ⟨actor, _, h⟩ := bindOkInv h
  obtain ⟨repoObj, _, h⟩ := bindOkInv h
  obtain ⟨repo, _, h⟩ := bindOkInv h
  obtain ⟨detail, _, h⟩ := bindOkInv h
  obtain ⟨location, _, h⟩ := bindOkInv h
  obtain ⟨country, _, h⟩ := bindOkInv h
  obtain ⟨country_code, _, h⟩ := bindOkInv h
  obtain ⟨lat, _, h⟩ := bindOkInv h
  obtain ⟨lng, _, h⟩ := bindOkInv h
  obtain ⟨company, _, h⟩ := bindOkInv h
  obtain ⟨public_repos, _, h⟩ := bindOkInv h
  obtain ⟨payload, _, h⟩ := bindOkInv h
  cases h
  cases htime
  rfl

/-- C9 witness: an event whose `created_at` is the unparsable string
"garbage": the build succeeds and the row's time is the wall-clock
fallback. -/
theorem write_timestamp_fallback_witness :
    objLookup [("created_at", Json.str "garbage")] "created_at"
        = some (.str "garbage")
    ∧ parseTs "garbage" = none
    ∧ rowTime ⟨2024, 1, 1, 0, 0, 0⟩ (.obj [("created_at", .str "garbage")])
        = .ok ⟨2024, 1, 1, 0, 0, 0⟩ :=
  ⟨rfl, by decide,
   (write_timestamp_fallback ⟨2024, 1, 1, 0, 0, 0⟩
      [("created_at", .str "garbage")] (.obj []) "garbage" rfl (by decide)).1⟩

/-- C4: for any login not yet cached, a transport failure or a non-200
status from the identity API makes `fetch_profile` return (not raise) the
profile with every enrichment field null, and that all-null profile is
cached. -/
theorem profile_fetch_failure_all_null (uresp gresp : HttpResp)
    (uc : UserCache) (gc : GeoCache) (name : Json)
    (hmiss : ucLookup uc name = .ok none)
    (hfail : ∀ p, uresp = some p → p.1 ≠ 200) :
    fetch_profile uresp gresp uc gc name =
      ([.netProfile], .ok (.obj emptyProfile, (name, .obj emptyProfile) :: uc, gc))
    ∧ ∀ k ∈ ["location", "company", "public_repos", "country",
             "country_code", "lat", "lng"],
        pyGetD (.obj emptyProfile) k .null = .ok .null := by
  have hpf : profileFetched uresp = .ok emptyProfile := by
    cases uresp with
    | none => rfl
    | some p =>
      obtain ⟨st, body⟩ := p
      have hst : st ≠ 200 := hfail (st, body) rfl
      simp [profileFetched, hst]
  constructor
  · simp [fetch_profile, hmiss, hpf, emptyProfile, objLookup, pyTruthy]
  · intro k hk
    simp only [List.mem_cons, List.not_mem_nil, or_false] at hk
    rcases hk with rfl | rfl | rfl | rfl | rfl | rfl | rfl <;> rfl

/-- C4 witness: an uncached login with a transport failure yields the
all-null profile. -/
theorem profile_fetch_failure_all_null_witness :
    ucLookup [] (.str "alice") = .ok none
    ∧ fetch_profile none none [] [] (.str "alice") =
        ([.netProfile],
         .ok (.obj emptyProfile, [(.str "alice", .obj emptyProfile)], [])) :=
  ⟨rfl,
   (profile_fetch_failure_all_null none none [] [] (.str "alice") rfl
      (by intro p hp; cases hp)).1⟩

theorem ucLookup_cons_self (uc : UserCache) (name p : Json)
    (h : ucLookup uc name ≠ .error PyErr.typeError) :
    ucLookup ((name, p) :: uc) name = .ok (some p) := by
  cases name <;> simp [ucLookup, pyKeyEq] at h ⊢

/-- C5: once a call of `fetch_profile` for a login completes (successful
fetch or all-null fallback alike), every later call for the same login
returns that cached profile unchanged, leaves both caches unchanged, and
performs no network call at all, whatever the external services would now
answer. -/
theorem profile_negative_cache_permanent (uresp1 gresp1 : HttpResp)
    (uc : UserCache) (gc : GeoCache) (name p : Json) (uc' : UserCache)
    (gc' : GeoCache) (eff : List Effect)
    (h : fetch_profile uresp1 gresp1 uc gc name = (eff, .ok (p, uc', gc'))) :
    ∀ uresp2 gresp2, fetch_profile uresp2 gresp2 uc' gc' name
        = ([], .ok (p, uc', gc')) := by
  intro uresp2 gresp2
  unfold fetch_profile at h
  cases hn : ucLookup uc name with
  | error e => rw [hn] at h; simp at h
  | ok r =>
    rw [hn] at h
    cases r with
    | some p0 =>
      simp only [Prod.mk.injEq, Except.ok.injEq] at h
      obtain ⟨_, hp, huc, hgc⟩ := h
      subst hp; subst huc; subst hgc
      unfold fetch_profile
      rw [hn]
    | none =>
      have hhash : ucLookup uc name ≠ .error PyErr.typeError := by
        rw [hn]; exact fun hc => by cases hc
      cases hpf : profileFetched uresp1 with
      | error e => rw [hpf] at h; simp at h
      | ok prof =>
        rw [hpf] at h
        simp only at h
        by_cases hloc : pyTruthy ((objLookup prof "location").getD .null) = true
        · rw [if_pos hloc] at h
          cases hgeo : geocode gresp1 gc ((objLookup prof "location").getD .null) with
          | mk geff gres =>
            rw [hgeo] at h
            cases gres with
            | error e => simp at h
            | ok gr =>
              obtain ⟨geo, gc2⟩ := gr
              dsimp only at h
              cases hmg : mergeGeo prof geo with
              | error e => rw [hmg] at h; simp at h
              | ok prof' =>
                rw [hmg] at h
                simp only [Prod.mk.injEq, Except.ok.injEq] at h
                obtain ⟨_, hp, huc, hgc⟩ := h
                subst hp; subst huc; subst hgc
                unfold fetch_profile
                rw [ucLookup_cons_self uc name (.obj prof') hhash]
        · rw [if_neg hloc] at h
          simp only [Prod.mk.injEq, Except.ok.injEq] at h
          obtain ⟨_, hp, huc, hgc⟩ := h
          subst hp; subst huc; subst hgc
          unfold fetch_profile
          rw [ucLookup_cons_self uc name (.obj prof) hhash]

/-- C5 witness: a first (transport-failing) call for "alice" populates the
cache; a second call with a healthy service answering 200 still returns the
cached all-null profile with no network call. -/
theorem profile_negative_cache_permanent_witness :
    fetch_profile none none [] [] (.str "alice")
        = ([.netProfile],
           .ok (.obj emptyProfile, [(.str "alice", .obj emptyProfile)], []))
    ∧ fetch_profile (some (200, .obj [("location", .str "Zurich")])) none
        [(.str "alice", .obj emptyProfile)] [] (.str "alice")
        = ([], .ok (.obj emptyProfile, [(.str "alice", .obj emptyProfile)], [])) :=
  ⟨rfl,
   profile_negative_cache_permanent none none [] [] (.str "alice")
     (.obj emptyProfile) [(.str "alice", .obj emptyProfile)] []
     [.netProfile] rfl (some (200, .obj [("location", .str "Zurich")])) none⟩

theorem geocode_miss (resp : HttpResp) (cache : GeoCache) (l : String)
    (hne : l ≠ "") (hmiss : objLookup cache (pyStripWs (pyLower l)) = none) :
    geocode resp cache (.str l) =
      match geocodeResult resp with
      | .ok r => ([.netGeo], .ok (r, (pyStripWs (pyLower l), r) :: cache))
      | .error e => ([.netGeo], .error e) := by
  simp [geocode, pyTruthy, hne, pyLowerStrip, hmiss]

/-- C6: the geocode cache is keyed by the lowercase-trimmed input. For two
non-empty location strings with the same lowercase-trimmed form, the first
(cache-missing) resolution issues exactly one geocoding call, and the
second returns the first's cached result with no call at all. -/
theorem geocode_cache_key_normalized (resp1 resp2 : HttpResp)
    (cache : GeoCache) (l1 l2 : String) (r : Json) (c1 : GeoCache)
    (eff : List Effect)
    (h1 : l1 ≠ "") (h2 : l2 ≠ "")
    (hkey : pyStripWs (pyLower l1) = pyStripWs (pyLower l2))
    (hmiss : objLookup cache (pyStripWs (pyLower l1)) = none)
    (hcall : geocode resp1 cache (.str l1) = (eff, .ok (r, c1))) :
    eff = [Effect.netGeo] ∧ geocode resp2 c1 (.str l2) = ([], .ok (r, c1)) := by
  rw [geocode_miss resp1 cache l1 h1 hmiss] at hcall
  cases hres : geocodeResult resp1 with
  | error e => rw [hres] at hcall; simp at hcall
  | ok r0 =>
    rw [hres] at hcall
    simp only [Prod.mk.injEq, Except.ok.injEq] at hcall
    obtain ⟨heff, hr, hc⟩ := hcall
    subst hr; subst hc
    refine ⟨heff.symm, ?_⟩
    simp [geocode, pyTruthy, h2, pyLowerStrip, objLookup, ← hkey]

/-- C6 witness: resolving "Zurich, Switzerland" then "  zurich, switzerland "
issues exactly one geocoding call; the second resolution is served from the
cache. -/
theorem geocode_cache_key_normalized_witness :
    geocode none [] (.str "Zurich, Switzerland")
        = ([.netGeo], .ok (.obj [], [("zurich, switzerland", .obj [])]))
    ∧ geocode none [("zurich, switzerland", .obj [])]
        (.str "  zurich, switzerland ")
        = ([], .ok (.obj [], [("zurich, switzerland", .obj [])])) :=
  ⟨rfl,
   (geocode_cache_key_normalized none none [] "Zurich, Switzerland"
      "  zurich, switzerland " (.obj []) [("zurich, switzerland", .obj [])]
      [.netGeo] (by decide) (by decide) (by decide) rfl rfl).2⟩

/-- C7 counterexample: for the empty input, `geocode` returns the all-null
result `{}` but does not store it in the cache — the early return skips the
`geocode_cache[key] = result` assignment, so the returned cache is still
empty, contradicting the claim that in all three failure cases the all-null
result is cached. -/
theorem geocode_empty_input_not_cached :
    geocode none [] (.str "") = ([], .ok (.obj [], [])) := rfl

/-- C7 (amended): a transport failure or a no-match response yields the
all-null result and stores it in the cache under the normalized key (so the
failed lookup is not retried); the empty input also yields the all-null
result but is answered before the cache is touched, so it is not cached
(and never issues a network call in the first place). -/
theorem geocode_failure_negative_caching (cache : GeoCache) (l : String)
    (hne : l ≠ "") (hmiss : objLookup cache (pyStripWs (pyLower l)) = none) :
    geocode none cache (.str l)
        = ([.netGeo], .ok (.obj [], (pyStripWs (pyLower l), .obj []) :: cache))
    ∧ geocode (some (200, .arr [])) cache (.str l)
        = ([.netGeo], .ok (.obj [], (pyStripWs (pyLower l), .obj []) :: cache))
    ∧ ∀ (resp : HttpResp), geocode resp cache (.str "")
        = ([], .ok (.obj [], cache)) := by
  refine ⟨?_, ?_, ?_⟩
  · rw [geocode_miss none cache l hne hmiss]; rfl
  · rw [geocode_miss (some (200, .arr [])) cache l hne hmiss]
    simp [geocodeResult, pyTruthy]
  · intro resp
    simp [geocode, pyTruthy]

/-- C7 witness: an unknown location with a transport failure is cached as
the all-null result; the empty input is not. -/
theorem geocode_failure_negative_caching_witness :
    geocode none [] (.str "Atlantis")
        = ([.netGeo], .ok (.obj [], [("atlantis", .obj [])]))
    ∧ geocode none [] (.str "") = ([], .ok (.obj [], [])) :=
  ⟨by
     have h := (geocode_failure_negative_caching [] "Atlantis" (by decide) rfl).1
     simpa using h,
   (geocode_failure_negative_caching [] "Atlantis" (by decide) rfl).2.2 none⟩

theorem pySubscriptZero_ok_truthy (body h : Json)
    (hh : pySubscriptZero body = .ok h) : pyTruthy body = true := by
  cases body with
  | arr xs => cases xs <;> simp_all [pySubscriptZero, pyTruthy]
  | str s =>
    rcases hd : s.data with _ | ⟨c, cs⟩
    · rw [pySubscriptZero] at hh
      rw [hd] at hh
      cases hh
    · simp only [pyTruthy, ne_eq, decide_eq_true_eq]
      intro hs
      rw [hs] at hd
      cases hd
  | _ => cases hh

theorem geocodeResult_zero_coord (body h : Json)
    (hh : pySubscriptZero body = .ok h) :
    (∀ latJ r, pyGetD h "lat" (.num 0) = .ok latJ → pyFloat latJ = .ok 0 →
       geocodeResult (some (200, body)) = .ok r →
       pyGetD r "lat" .null = .ok .null)
    ∧ (∀ lonJ r, pyGetD h "lon" (.num 0) = .ok lonJ → pyFloat lonJ = .ok 0 →
       geocodeResult (some (200, body)) = .ok r →
       pyGetD r "lng" .null = .ok .null) := by
  have htr := pySubscriptZero_ok_truthy body h hh
  constructor
  · intro latJ r hlat hf hres
    simp only [geocodeResult, htr, if_true, hh, if_pos rfl] at hres
    simp only [Bind.bind, Except.bind] at hres
    obtain ⟨adr, _, hres⟩ := bindOkInv hres
    obtain ⟨country, _, hres⟩ := bindOkInv hres
    obtain ⟨ccRaw, _, hres⟩ := bindOkInv hres
    obtain ⟨u, _, hres⟩ := bindOkInv hres
    obtain ⟨latJ', hlatJ', hres⟩ := bindOkInv hres
    rw [hlat] at hlatJ'
    cases hlatJ'
    obtain ⟨latF, hlatF, hres⟩ := bindOkInv hres
    rw [hf] at hlatF
    cases hlatF
    obtain ⟨lonJ, _, hres⟩ := bindOkInv hres
    obtain ⟨lonF, _, hres⟩ := bindOkInv hres
    cases hres
    simp [pyGetD, objLookup]
  · intro lonJ r hlon hf hres
    simp only [geocodeResult, htr, if_true, hh, if_pos rfl] at hres
    simp only [Bind.bind, Except.bind] at hres
    obtain ⟨adr, _, hres⟩ := bindOkInv hres
    obtain ⟨country, _, hres⟩ := bindOkInv hres
    obtain ⟨ccRaw, _, hres⟩ := bindOkInv hres
    obtain ⟨u, _, hres⟩ := bindOkInv hres
    obtain ⟨latJ, _, hres⟩ := bindOkInv hres
    obtain ⟨latF, _, hres⟩ := bindOkInv hres
    obtain ⟨lonJ', hlonJ', hres⟩ := bindOkInv hres
    rw [hlon] at hlonJ'
    cases hlonJ'
    obtain ⟨lonF, hlonF, hres⟩ := bindOkInv hres
    rw [hf] at hlonF
    cases hlonF
    cases hres
    simp [pyGetD, objLookup]

/-- C10 (implicit): when the geocoding response's best match carries a
latitude or longitude numerically equal to zero, `geocode` maps that
coordinate to null — `float(...) or None` treats `0.0` as falsy — so
equator / prime-meridian coordinates are lost even though the service
returned them. -/
theorem geocode_zero_coordinate_null (body h : Json) (loc : String)
    (cache : GeoCache)
    (hne : loc ≠ "") (hmiss : objLookup cache (pyStripWs (pyLower loc)) = none)
    (hh : pySubscriptZero body = .ok h) :
    (∀ latJ, pyGetD h "lat" (.num 0) = .ok latJ → pyFloat latJ = .ok 0 →
       ∀ eff res c, geocode (some (200, body)) cache (.str loc)
           = (eff, .ok (res, c)) →
         pyGetD res "lat" .null = .ok .null)
    ∧ (∀ lonJ, pyGetD h "lon" (.num 0) = .ok lonJ → pyFloat lonJ = .ok 0 →
       ∀ eff res c, geocode (some (200, body)) cache (.str loc)
           = (eff, .ok (res, c)) →
         pyGetD res "lng" .null = .ok .null) := by
  constructor
  · intro latJ hlat hf eff res c hg
    rw [geocode_miss (some (200, body)) cache loc hne hmiss] at hg
    cases hres : geocodeResult (some (200, body)) with
    | error e => rw [hres] at hg; simp at hg
    | ok r0 =>
      rw [hres] at hg
      simp only [Prod.mk.injEq, Except.ok.injEq] at hg
      obtain ⟨_, hr, _⟩ := hg
      exact hr ▸ (geocodeResult_zero_coord body h hh).1 latJ r0 hlat hf hres
  · intro lonJ hlon hf eff res c hg
    rw [geocode_miss (some (200, body)) cache loc hne hmiss] at hg
    cases hres : geocodeResult (some (200, body)) with
    | error e => rw [hres] at hg; simp at hg
    | ok r0 =>
      rw [hres] at hg
      simp only [Prod.mk.injEq, Except.ok.injEq] at hg
      obtain ⟨_, hr, _⟩ := hg
      exact hr ▸ (geocodeResult_zero_coord body h hh).2 lonJ r0 hlon hf hres

/-- C10 witness: a best match at latitude 0 (and longitude 8) comes back
with a null lat. -/
theorem geocode_zero_coordinate_null_witness :
    pySubscriptZero (.arr [Json.obj [("lat", .num 0), ("lon", .num 8)]])
        = .ok (.obj [("lat", .num 0), ("lon", .num 8)])
    ∧ geocode (some (200, .arr [Json.obj [("lat", .num 0), ("lon", .num 8)]]))
        [] (.str "gulf of guinea")
        = ([.netGeo],
           .ok (.obj [("country", .null), ("country_code", .null),
                      ("lat", .null), ("lng", .num 8)],
               [("gulf of guinea",
                 .obj [("country", .null), ("country_code", .null),
                       ("lat", .null), ("lng", .num 8)])]))
    ∧ pyGetD (.obj [("country", .null), ("country_code", .null),
                    ("lat", .null), ("lng", .num 8)]) "lat" .null
        = .ok .null :=
  ⟨rfl, rfl,
   (geocode_zero_coordinate_null
      (.arr [Json.obj [("lat", .num 0), ("lon", .num 8)]])
      (.obj [("lat", .num 0), ("lon", .num 8)]) "gulf of guinea" []
      (by decide) rfl rfl).1 (.num 0) rfl rfl [.netGeo]
      (.obj [("country", .null), ("country_code", .null),
             ("lat", .null), ("lng", .num 8)])
      [("gulf of guinea",
        .obj [("country", .null), ("country_code", .null),
              ("lat", .null), ("lng", .num 8)])] rfl⟩

theorem geocode_effects (resp : HttpResp) (cache : GeoCache) (loc : Json) :
    (geocode resp cache loc).1 = [] ∨ (geocode resp cache loc).1 = [Effect.netGeo] := by
  unfold geocode
  split
  · exact Or.inl rfl
  · split
    · exact Or.inl rfl
    · split
      · exact Or.inl rfl
      · split
        · exact Or.inr rfl
        · exact Or.inr rfl

theorem fetch_profile_effects (u g : HttpResp) (uc : UserCache) (gc : GeoCache)
    (n : Json) :
    (fetch_profile u g uc gc n).1 = []
    ∨ (fetch_profile u g uc gc n).1 = [Effect.netProfile]
    ∨ (fetch_profile u g uc gc n).1 = [Effect.netProfile, Effect.netGeo] := by
  cases hl : ucLookup uc n with
  | error e => simp [fetch_profile, hl]
  | ok r =>
    cases r with
    | some p => simp [fetch_profile, hl]
    | none =>
      cases hf : profileFetched u with
      | error e => simp [fetch_profile, hl, hf]
      | ok prof =>
        by_cases ht : pyTruthy ((objLookup prof "location").getD .null) = true
        · cases hgc : geocode g gc ((objLookup prof "location").getD .null) with
          | mk ge gr =>
            have hge := geocode_effects g gc ((objLookup prof "location").getD .null)
            rw [hgc] at hge
            cases gr with
            | error e =>
              rcases hge with h | h <;>
                simp_all [fetch_profile, hl, hf, ht, hgc]
            | ok p =>
              obtain ⟨geo, gc2⟩ := p
              cases hm : mergeGeo prof geo with
              | error e =>
                rcases hge with h | h <;>
                  simp_all [fetch_profile, hl, hf, ht, hgc, hm]
              | ok prof' =>
                rcases hge with h | h <;>
                  simp_all [fetch_profile, hl, hf, ht, hgc, hm]
        · simp [fetch_profile, hl, hf, ht]

theorem fetch_profile_effects_mem (u g : HttpResp) (uc : UserCache)
    (gc : GeoCache) (n : Json) (x : Effect)
    (hx : x ∈ (fetch_profile u g uc gc n).1) :
    x = Effect.netProfile ∨ x = Effect.netGeo := by
  rcases fetch_profile_effects u g uc gc n with h | h | h <;> rw [h] at hx <;>
    simp_all

theorem processBody_spec (inp : StepIn) (st : LoopState) (body : MsgBody) :
    (∃ e, (processBody inp st body).2.2 = some e
       ∧ Effect.offsetCommit ∉ (processBody inp st body).1
       ∧ (processBody inp st body).2.1.errors = st.errors
       ∧ (processBody inp st body).2.1.processed = st.processed)
  ∨ ((processBody inp st body).2.2 = none
       ∧ (∃ l1, (processBody inp st body).1
             = l1 ++ [Effect.dbExec, Effect.dbCommit, Effect.offsetCommit]
           ∧ Effect.offsetCommit ∉ l1)
       ∧ (processBody inp st body).2.1.processed = st.processed + 1
       ∧ (processBody inp st body).2.1.errors = st.errors
       ∧ ∃ row, (processBody inp st body).2.1.db = dbInsert st.db row) := by
  cases body with
  | badUtf8 => exact Or.inl ⟨_, rfl, by simp [processBody], rfl, rfl⟩
  | badJson => exact Or.inl ⟨_, rfl, by simp [processBody], rfl, rfl⟩
  | json event =>
    cases ha : (do
        let actorObj ← pyGetD event "actor" (.obj [])
        pyGetD actorObj "login" (.str "")) with
    | error e =>
      have hpb : processBody inp st (.json event) = ([], st, some e) := by
        simp [processBody, ha]
      rw [hpb]
      exact Or.inl ⟨e, rfl, by simp, rfl, rfl⟩
    | ok actor =>
      cases hfp : fetch_profile inp.uresp inp.gresp st.ucache st.gcache actor with
      | mk eff fres =>
        have hmem : Effect.offsetCommit ∉ eff := by
          intro hc
          have h2 : Effect.offsetCommit
              ∈ (fetch_profile inp.uresp inp.gresp st.ucache st.gcache actor).1 := by
            rw [hfp]; exact hc
          rcases fetch_profile_effects_mem inp.uresp inp.gresp st.ucache
            st.gcache actor Effect.offsetCommit h2 with h | h <;> cases h
        cases fres with
        | error e =>
          have hpb : processBody inp st (.json event) = (eff, st, some e) := by
            simp [processBody, ha, hfp]
          rw [hpb]
          exact Or.inl ⟨e, rfl, hmem, rfl, rfl⟩
        | ok r =>
          obtain ⟨profile, uc', gc'⟩ := r
          cases hbr : buildRow inp.now event profile with
          | error e =>
            have hpb : processBody inp st (.json event)
                = (eff, ⟨uc', gc', st.db, st.processed, st.errors⟩, some e) := by
              simp [processBody, ha, hfp, hbr]
            rw [hpb]
            exact Or.inl ⟨e, rfl, hmem, rfl, rfl⟩
          | ok row =>
            by_cases hexec : inp.dbExecOk = true
            · by_cases hcommit : inp.dbCommitOk = true
              · have hpb : processBody inp st (.json event)
                    = (eff ++ [.dbExec, .dbCommit, .offsetCommit],
                       ⟨uc', gc', dbInsert st.db row, st.processed + 1, st.errors⟩,
                       none) := by
                  simp [processBody, ha, hfp, hbr, hexec, hcommit]
                rw [hpb]
                exact Or.inr ⟨rfl, ⟨eff, rfl, hmem⟩, rfl, rfl, row, rfl⟩
              · have hpb : processBody inp st (.json event)
                    = (eff ++ [.dbExec],
                       ⟨uc', gc', st.db, st.processed, st.errors⟩,
                       some .dbError) := by
                  simp [processBody, ha, hfp, hbr, hexec, hcommit]
                rw [hpb]
                exact Or.inl ⟨.dbError, rfl, by simp [hmem], rfl, rfl⟩
            · have hpb : processBody inp st (.json event)
                  = (eff ++ [.dbExec],
                     ⟨uc', gc', st.db, st.processed, st.errors⟩,
                     some .dbError) := by
                simp [processBody, ha, hfp, hbr, hexec]
              rw [hpb]
              exact Or.inl ⟨.dbError, rfl, by simp [hmem], rfl, rfl⟩

/-- C1: in every loop iteration, the queue offset commit happens only after
the database transaction commit — any `offsetCommit` in the effect trace is
preceded by a `dbCommit` — and an iteration that terminates the loop with
an exception or absorbs an error (incrementing the error counter) commits
no offset at all. -/
theorem db_commit_precedes_offset_commit (inp : StepIn) (st : LoopState) :
    (Effect.offsetCommit ∈ (step inp st).2 →
       ∃ l1 l2, (step inp st).2 = l1 ++ Effect.dbCommit :: l2
         ∧ Effect.offsetCommit ∉ l1)
    ∧ (∀ e st', (step inp st).1 = .crashed e st' →
       Effect.offsetCommit ∉ (step inp st).2)
    ∧ (∀ st', (step inp st).1 = .continued st' → st.errors < st'.errors →
       Effect.offsetCommit ∉ (step inp st).2) := by
  cases hp : inp.poll with
  | interrupt => refine ⟨?_, ?_, ?_⟩ <;> simp [step, hp]
  | timeout => refine ⟨?_, ?_, ?_⟩ <;> simp [step, hp]
  | kafkaError eof =>
    by_cases he : eof = true <;> refine ⟨?_, ?_, ?_⟩ <;> simp [step, hp, he]
  | msg body =>
    rcases hpb : processBody inp st body with ⟨eff, st', err⟩
    rcases processBody_spec inp st body with
      ⟨e0, he0, hmem, herr, _⟩ | ⟨hnone, ⟨l1, hl1, hnl1⟩, _, herr, _⟩
    · rw [hpb] at he0 hmem herr
      simp only at he0 hmem herr
      subst he0
      have hstep : step inp st
          = if e0 = .jsonDecodeError ∨ e0 = .keyError then
              (.continued ⟨st'.ucache, st'.gcache, st'.db, st'.processed,
                 st'.errors + 1⟩, eff ++ [.dbRollback])
            else if e0 = .dbError then
              (.continued ⟨st'.ucache, st'.gcache, st'.db, st'.processed,
                 st'.errors + 1⟩, eff ++ [.dbRollback, .dbReconnect])
            else (.crashed e0 st', eff) := by
        simp [step, hp, hpb]
      by_cases h1 : e0 = .jsonDecodeError ∨ e0 = .keyError
      · rw [hstep, if_pos h1]
        refine ⟨?_, ?_, ?_⟩ <;> simp [hmem]
      · by_cases h2 : e0 = .dbError
        · rw [hstep, if_neg h1, if_pos h2]
          refine ⟨?_, ?_, ?_⟩ <;> simp [hmem]
        · rw [hstep, if_neg h1, if_neg h2]
          exact ⟨fun hc => absurd hc hmem, fun _ _ _ => hmem, by simp⟩
    · rw [hpb] at hnone hl1 herr
      simp only at hnone hl1 herr
      subst hnone
      have hstep : step inp st = (.continued st', eff) := by
        simp [step, hp, hpb]
      rw [hstep]
      simp only
      refine ⟨?_, ?_, ?_⟩
      · intro _
        refine ⟨l1 ++ [Effect.dbExec], [Effect.offsetCommit], ?_, ?_⟩
        · rw [hl1]; simp
        · simp [hnl1]
      · intro e s hc; cases hc
      · intro s hc hlt
        cases hc
        rw [herr] at hlt
        omega

/-- C1 witness: a fully successful iteration commits the offset last, right
after the database commit; a crashing iteration and an absorbed-error
iteration commit no offset. -/
theorem db_commit_precedes_offset_commit_witness :
    (Effect.offsetCommit ∈ (step demoIn demoState).2
     ∧ ∃ l1 l2, (step demoIn demoState).2 = l1 ++ Effect.dbCommit :: l2
         ∧ Effect.offsetCommit ∉ l1)
    ∧ ((step demoBadUtf8In demoState).1
         = .crashed .unicodeDecodeError demoState
       ∧ Effect.offsetCommit ∉ (step demoBadUtf8In demoState).2)
    ∧ (∃ st', (step demoBadJsonIn demoState).1 = .continued st'
       ∧ demoState.errors < st'.errors
       ∧ Effect.offsetCommit ∉ (step demoBadJsonIn demoState).2) :=
  ⟨⟨by decide,
    (db_commit_precedes_offset_commit demoIn demoState).1 (by decide)⟩,
   ⟨rfl,
    (db_commit_precedes_offset_commit demoBadUtf8In demoState).2.1
      .unicodeDecodeError demoState rfl⟩,
   ⟨⟨[], [], [], 0, 1⟩, rfl, by decide,
    (db_commit_precedes_offset_commit demoBadJsonIn demoState).2.2
      ⟨[], [], [], 0, 1⟩ rfl (by decide)⟩⟩

/-- C3 counterexample: a message whose body is not valid UTF-8 raises
`UnicodeDecodeError` inside `msg.value().decode("utf-8")`; that error is not
in the caught classes `(json.JSONDecodeError, KeyError)` or
`psycopg2.Error`, so it propagates and terminates the main loop — a
parse-stage error that the loop does not absorb. -/
theorem undecodable_message_crashes_loop :
    step demoBadUtf8In demoState
      = (.crashed .unicodeDecodeError demoState, []) := rfl

/-- C3 (amended): errors the loop's `except` clauses do catch — JSON decode
errors, missing-key errors, and database errors from persistence — are
absorbed locally: the error counter is incremented, no offset is committed,
and the loop continues; an iteration whose message processing completes
without an exception is processed (counter advanced) and persisted
(conflict-skip insert applied). Errors outside those classes — e.g. the
`UnicodeDecodeError` of a non-UTF-8 body — terminate the loop. -/
theorem caught_errors_absorbed (inp : StepIn) (st : LoopState) (body : MsgBody)
    (hpoll : inp.poll = .msg body) :
    (∀ eff st' e, processBody inp st body = (eff, st', some e) →
       e = .jsonDecodeError ∨ e = .keyError ∨ e = .dbError →
       ∃ st'', (step inp st).1 = .continued st''
         ∧ st''.errors = st.errors + 1
         ∧ Effect.offsetCommit ∉ (step inp st).2)
    ∧ (∀ eff st', processBody inp st body = (eff, st', none) →
       (step inp st).1 = .continued st'
       ∧ st'.processed = st.processed + 1
       ∧ ∃ row, st'.db = dbInsert st.db row) := by
  constructor
  · intro eff st' e hpb he
    rcases processBody_spec inp st body with
      ⟨e0, he0, hmem, herr, _⟩ | ⟨hnone, _, _, _, _⟩
    · rw [hpb] at he0 hmem herr
      simp only at he0 hmem herr
      injection he0 with he0
      subst he0
      have hstep : step inp st
          = if e = .jsonDecodeError ∨ e = .keyError then
              (.continued ⟨st'.ucache, st'.gcache, st'.db, st'.processed,
                 st'.errors + 1⟩, eff ++ [.dbRollback])
            else if e = .dbError then
              (.continued ⟨st'.ucache, st'.gcache, st'.db, st'.processed,
                 st'.errors + 1⟩, eff ++ [.dbRollback, .dbReconnect])
            else (.crashed e st', eff) := by
        simp [step, hpoll, hpb]
      rcases he with h | h | h <;>
        (refine ⟨⟨st'.ucache, st'.gcache, st'.db, st'.processed,
            st'.errors + 1⟩, ?_, ?_, ?_⟩ <;>
          simp [hstep, h, hmem, herr])
    · rw [hpb] at hnone; cases hnone
  · intro eff st' hpb
    rcases processBody_spec inp st body with
      ⟨e0, he0, _, _, _⟩ | ⟨hnone, _, hproc, _, row, hdb⟩
    · rw [hpb] at he0; cases he0
    · rw [hpb] at hproc hdb
      simp only at hproc hdb
      have hstep : step inp st = (.continued st', eff) := by
        simp [step, hpoll, hpb]
      exact ⟨by rw [hstep], hproc, row, hdb⟩

/-- C3 (amended) witness: a non-JSON body is absorbed (errors counter 1, no
offset commit, loop continues) and the next well-formed message is
processed and persisted. -/
theorem caught_errors_absorbed_witness :
    (∃ st'', (step demoBadJsonIn demoState).1 = .continued st''
       ∧ st''.errors = demoState.errors + 1
       ∧ Effect.offsetCommit ∉ (step demoBadJsonIn demoState).2)
    ∧ ((step demoIn demoState).1
         = .continued ⟨[(.str "alice", .obj emptyProfile)], [], [demoRow], 1, 0⟩
       ∧ (⟨[(.str "alice", .obj emptyProfile)], [], [demoRow], 1, 0⟩
            : LoopState).processed = demoState.processed + 1
       ∧ ∃ row, ([demoRow] : List Row) = dbInsert demoState.db row) :=
  ⟨(caught_errors_absorbed demoBadJsonIn demoState .badJson rfl).1
     [] demoState .jsonDecodeError rfl (Or.inl rfl),
   (caught_errors_absorbed demoIn demoState (.json demoEvent) rfl).2
     [.netProfile, .dbExec, .dbCommit, .offsetCommit]
     ⟨[(.str "alice", .obj emptyProfile)], [], [demoRow], 1, 0⟩ rfl⟩

end GHInsights
